import Mathlib

/- Shallow embedding of the voxel-world core of the repository:
   js/world.js (chunked block storage, terrain generation, section meshing)
   and js/player.js (kinematic movement and collision).

   Modelling conventions.
   Block coordinates are JavaScript numbers that are always integer valued
   on every call path, so they are modelled as Int.  Player positions and
   velocities are fractional and are modelled as rationals; the literals
   0.01 and 1.7 of player.js are modelled as the exact rationals they
   denote.  Uint8Array cells hold naturals below 256; an assignment stores
   the value modulo 256 (JavaScript ToUint8 on an integer).  The constants
   CHUNK_SIZE = 16, SECTION_HEIGHT = 16 and WORLD_HEIGHT = 128 of world.js
   are inlined as literals.  Math.floor of an exact integer quotient x/16
   is floor division, Int.fdiv.  The chunk key string "cx,cz" is an
   injective function of the pair (cx, cz), so the chunk table is modelled
   as a map keyed by the pair itself. -/

/- Block ids from world.js (the Blocks table). -/
def Blocks.AIR : Nat := 0
def Blocks.DIRT : Nat := 1
def Blocks.GRASS : Nat := 2
def Blocks.STONE : Nat := 3
def Blocks.WOOD : Nat := 4
def Blocks.PLANKS : Nat := 5
def Blocks.SAND : Nat := 6
def Blocks.WATER : Nat := 7
def Blocks.LEAVES : Nat := 8
def Blocks.GLASS : Nat := 9

/- The BlockNames table of world.js; an id outside the table yields
   undefined, modelled as none. -/
def blockName : Nat → Option String
  | 0 => some "air"
  | 1 => some "dirt"
  | 2 => some "grass"
  | 3 => some "stone"
  | 4 => some "wood"
  | 5 => some "planks"
  | 6 => some "sand"
  | 7 => some "water"
  | 8 => some "leaves"
  | 9 => some "glass"
  | _ => none

/- world.js, `x & 15`: JavaScript converts x with ToInt32 and masks the
   low four bits of the 32-bit signed representation, which is the
   non-negative residue modulo 16 of the int32 value. -/
def jsAnd15 (x : Int) : Nat :=
  (((x + 2 ^ 31) % 2 ^ 32 - 2 ^ 31) % 16).toNat

/- Storing an integer into a Uint8Array cell applies ToUint8, the value
   modulo 2^8. -/
def jsToUint8 (k : Int) : Nat :=
  (k % 256).toNat

/- A section: 16 x 16 x 16 cells in a flat Uint8Array indexed by
   x + 16*y + 256*z, plus the cached mesh flag (null, modelled none, means
   dirty; true means built) and a vertex count.  The GPU-side
   vertexBuffer handle is owned by the render collaborator and carries no
   observable state, so it is not modelled. -/
structure Section where
  blocks : Nat → Nat
  mesh : Option Bool
  vertexCount : Nat

/- World._createSection: zero-filled cells, no mesh. -/
def createSection : Section :=
  { blocks := fun _ => 0, mesh := none, vertexCount := 0 }

/- A chunk: its coordinates and 8 stacked sections (indices 0..7). -/
structure Chunk where
  cx : Int
  cz : Int
  sections : Nat → Section

/- World._createChunk. -/
def createChunk (cx cz : Int) : Chunk :=
  { cx := cx, cz := cz, sections := fun _ => createSection }

/- The world: the lazily populated chunk table, keyed by (cx, cz). -/
structure World where
  chunks : Int × Int → Option Chunk

/- The initial world with an empty chunk table. -/
def initialWorld : World :=
  { chunks := fun _ => none }

/- World.getChunk: return the stored chunk, or create, store and return a
   fresh one. -/
def World.getChunk (w : World) (cx cz : Int) : Chunk × World :=
  match w.chunks (cx, cz) with
  | some c => (c, w)
  | none =>
    (createChunk cx cz,
     { chunks := fun p => if p = (cx, cz) then some (createChunk cx cz) else w.chunks p })

/- The flat cell index of world.js: lx + sy*CHUNK_SIZE +
   lz*CHUNK_SIZE*SECTION_HEIGHT with lx = x & 15, sy = y & 15, lz = z & 15. -/
def blockIndex (x y z : Int) : Nat :=
  jsAnd15 x + jsAnd15 y * 16 + jsAnd15 z * 256

/- World.getBlock, with its chunk-allocation side effect: returns AIR for
   y outside [0, 128), otherwise resolves chunk (floor division by 16),
   section (floor of y/16) and local index and reads the cell. -/
def World.getBlock (w : World) (x y z : Int) : Nat × World :=
  if y < 0 ∨ 128 ≤ y then (Blocks.AIR, w)
  else
    let gc := w.getChunk (x.fdiv 16) (z.fdiv 16)
    ((gc.1.sections ((y.fdiv 16).toNat)).blocks (blockIndex x y z), gc.2)

/- The value returned by World.getBlock.  A missing chunk is created
   zero-filled before being read, so reading it yields 0; the lemma
   getBlockVal_eq_getBlock_fst below proves this equal to the first
   component of World.getBlock. -/
def getBlockVal (w : World) (x y z : Int) : Nat :=
  if y < 0 ∨ 128 ≤ y then Blocks.AIR
  else
    match w.chunks (x.fdiv 16, z.fdiv 16) with
    | some c => (c.sections ((y.fdiv 16).toNat)).blocks (blockIndex x y z)
    | none => 0

/- World.setBlock: no-op for y outside [0, 128); otherwise writes the
   ToUint8 of the kind into the resolved cell and clears the owning
   section mesh flag (mesh = null marks it dirty). -/
def World.setBlock (w : World) (x y z : Int) (block : Int) : World :=
  if y < 0 ∨ 128 ≤ y then w
  else
    let cx := x.fdiv 16
    let cz := z.fdiv 16
    let gc := w.getChunk cx cz
    let sectionIndex := (y.fdiv 16).toNat
    let idx := blockIndex x y z
    let s := gc.1.sections sectionIndex
    let s' : Section :=
      { blocks := fun i => if i = idx then jsToUint8 block else s.blocks i,
        mesh := none,
        vertexCount := s.vertexCount }
    let c' : Chunk :=
      { cx := gc.1.cx, cz := gc.1.cz,
        sections := fun i => if i = sectionIndex then s' else gc.1.sections i }
    { chunks := fun p => if p = (cx, cz) then some c' else gc.2.chunks p }

/- The cached mesh flag of the section with index cy of chunk (cx, cz);
   none both for a dirty section and for a chunk not yet allocated. -/
def meshFlagAt (w : World) (cx : Int) (cy : Nat) (cz : Int) : Option Bool :=
  match w.chunks (cx, cz) with
  | some c => (c.sections cy).mesh
  | none => none

/- The external UV-lookup collaborator (Textures.getUV).  It is keyed by
   the block name (undefined, modelled none, for ids outside the table)
   and the face class.  getUV returns eight floats but makeFace
   destructures only the first four, so the lookup is modelled by those
   four. -/
def UVLookup : Type :=
  Option String → String → ℚ × ℚ × ℚ × ℚ

/- makeFace of world.js: six vertices (two triangles) for one cube face,
   each vertex six floats: position, UV, shade 1.  The cube edge s = 1 is
   inlined.  A face name outside the six cases would yield undefined in
   the source and is never reached; it is modelled as the empty list. -/
def makeFace (face : String) (x y z : Int) (u0 v0 u1 v1 : ℚ) : List ℚ :=
  let xq : ℚ := x
  let yq : ℚ := y
  let zq : ℚ := z
  match face with
  | "top" =>
    [xq, yq + 1, zq, u0, v1, 1,
     xq + 1, yq + 1, zq, u1, v1, 1,
     xq + 1, yq + 1, zq + 1, u1, v0, 1,
     xq, yq + 1, zq, u0, v1, 1,
     xq + 1, yq + 1, zq + 1, u1, v0, 1,
     xq, yq + 1, zq + 1, u0, v0, 1]
  | "bottom" =>
    [xq, yq, zq, u0, v1, 1,
     xq + 1, yq, zq + 1, u1, v0, 1,
     xq + 1, yq, zq, u1, v1, 1,
     xq, yq, zq, u0, v1, 1,
     xq, yq, zq + 1, u0, v0, 1,
     xq + 1, yq, zq + 1, u1, v0, 1]
  | "north" =>
    [xq, yq, zq, u0, v1, 1,
     xq + 1, yq + 1, zq, u1, v0, 1,
     xq + 1, yq, zq, u1, v1, 1,
     xq, yq, zq, u0, v1, 1,
     xq, yq + 1, zq, u0, v0, 1,
     xq + 1, yq + 1, zq, u1, v0, 1]
  | "south" =>
    [xq, yq, zq + 1, u0, v1, 1,
     xq + 1, yq, zq + 1, u1, v1, 1,
     xq + 1, yq + 1, zq + 1, u1, v0, 1,
     xq, yq, zq + 1, u0, v1, 1,
     xq + 1, yq + 1, zq + 1, u1, v0, 1,
     xq, yq + 1, zq + 1, u0, v0, 1]
  | "west" =>
    [xq, yq, zq, u0, v1, 1,
     xq, yq + 1, zq + 1, u1, v0, 1,
     xq, yq, zq + 1, u1, v1, 1,
     xq, yq, zq, u0, v1, 1,
     xq, yq + 1, zq, u0, v0, 1,
     xq, yq + 1, zq + 1, u1, v0, 1]
  | "east" =>
    [xq + 1, yq, zq, u0, v1, 1,
     xq + 1, yq, zq + 1, u1, v1, 1,
     xq + 1, yq + 1, zq + 1, u1, v0, 1,
     xq + 1, yq, zq, u0, v1, 1,
     xq + 1, yq + 1, zq + 1, u1, v0, 1,
     xq + 1, yq + 1, zq, u0, v0, 1]
  | _ => []

/- The faces table of World.buildSectionMesh: face name and neighbour
   offset.  The two trailing entries of each source row are never read
   and are dropped. -/
def facesList : List (String × Int × Int × Int) :=
  [("top", 0, 1, 0), ("bottom", 0, -1, 0), ("north", 0, 0, -1),
   ("south", 0, 0, 1), ("west", -1, 0, 0), ("east", 1, 0, 0)]

/- The body of the face loop of World.buildSectionMesh for one block at
   absolute coordinates (wx, wy, wz) and one face: the neighbour cell is
   read in absolute world coordinates; the face is pushed when the
   neighbour is air, or when the current block is not transparent (its
   name is neither glass nor water) and the neighbour is named glass. -/
def cellFaceVerts (getUV : UVLookup) (w : World) (wx wy wz : Int)
    (f : String × Int × Int × Int) : List ℚ :=
  let id := getBlockVal w wx wy wz
  let name := blockName id
  let neighbor := getBlockVal w (wx + f.2.1) (wy + f.2.2.1) (wz + f.2.2.2)
  if neighbor = Blocks.AIR ∨
      (¬(name = some "glass" ∨ name = some "water") ∧
        blockName neighbor = some "glass") then
    let uv := getUV name
      (if f.1 = "top" then "top" else if f.1 = "bottom" then "bottom" else "side")
    makeFace f.1 wx wy wz uv.1 uv.2.1 uv.2.2.1 uv.2.2.2
  else []

/- The vertices contributed by one cell of the section: nothing for an
   air cell, otherwise the visible faces among the six. -/
def cellVerts (getUV : UVLookup) (w : World) (wx wy wz : Int) : List ℚ :=
  if getBlockVal w wx wy wz = Blocks.AIR then []
  else (facesList.map (cellFaceVerts getUV w wx wy wz)).flatten

/- The flat vertex array built by World.buildSectionMesh for the section
   with index cy of chunk (cx, cz), looping sy, then x, then z, over the
   16 x 16 x 16 cells at absolute coordinates (cx*16 + x, cy*16 + sy,
   cz*16 + z).  The getBlock calls of the source may allocate missing
   neighbour chunks; the allocation is zero-filled and value-invisible
   (lemma getBlockVal_getChunk_snd), so the reads are modelled by
   getBlockVal. -/
def buildSectionMeshVerts (getUV : UVLookup) (w : World)
    (cx : Int) (cy : Nat) (cz : Int) : List ℚ :=
  ((List.range 16).map (fun (sy : Nat) =>
    ((List.range 16).map (fun (x : Nat) =>
      ((List.range 16).map (fun (z : Nat) =>
        cellVerts getUV w (cx * 16 + (x : Int)) ((cy : Int) * 16 + (sy : Int))
          (cz * 16 + (z : Int)))).flatten)).flatten)).flatten

/- World.buildSectionMesh as a state transformer on the section at
   (cx, cy, cz): a section whose mesh flag is not null is skipped;
   otherwise the vertex array is built, the vertex count becomes its
   length divided by 6, and the mesh flag is set to true (built).  The
   GPU buffer upload has no observable state in the model. -/
def World.buildSectionMesh (getUV : UVLookup) (w : World)
    (cx : Int) (cy : Nat) (cz : Int) : World :=
  let gc := w.getChunk cx cz
  let s := gc.1.sections cy
  match s.mesh with
  | some _ => gc.2
  | none =>
    let verts := buildSectionMeshVerts getUV gc.2 cx cy cz
    let s' : Section :=
      { blocks := s.blocks, mesh := some true, vertexCount := verts.length / 6 }
    let c' : Chunk :=
      { cx := gc.1.cx, cz := gc.1.cz,
        sections := fun i => if i = cy then s' else gc.1.sections i }
    { chunks := fun p => if p = (cx, cz) then some c' else gc.2.chunks p }

/- World.buildChunkMeshes: build all 8 sections of the chunk in order. -/
def World.buildChunkMeshes (getUV : UVLookup) (w : World) (cx cz : Int) : World :=
  (List.range 8).foldl (fun w i => w.buildSectionMesh getUV cx i cz) w

/- The block chosen by World.generateChunk for a cell at height y, with
   the flat terrain height constant 32 inlined: grass at y = 32, dirt in
   (29, 32), stone below 29, air otherwise (including exactly y = 29). -/
def genBlockAt (y : Nat) : Nat :=
  if y = 32 then Blocks.GRASS
  else if y < 32 ∧ 32 - 3 < y then Blocks.DIRT
  else if y < 32 - 3 then Blocks.STONE
  else Blocks.AIR

/- World.generateChunk: fetch the chunk, then setBlock every cell of the
   chunk, looping y over [0, 128), x and z over [0, 16). -/
def generateChunk (w : World) (cx cz : Int) : World :=
  let w0 := (w.getChunk cx cz).2
  (List.range 128).foldl (fun w (y : Nat) =>
    (List.range 16).foldl (fun w (x : Nat) =>
      (List.range 16).foldl (fun w (z : Nat) =>
        w.setBlock (cx * 16 + x) y (cz * 16 + z) (genBlockAt y)) w) w) w0

/- Player state from player.js: position, velocity, grounded flag. -/
structure Player where
  x : ℚ
  y : ℚ
  z : ℚ
  velX : ℚ
  velY : ℚ
  velZ : ℚ
  onGround : Bool

/- player.js gravity constant, -0.01, as an exact rational. -/
def gravity : ℚ := -(1 / 100)

/- Player._moveWithCollision.  The source computes blockFeet and
   blockFeetZ before either assignment, so both use the pre-move x and z;
   feet is the floor of the tentative new y.  The vertical test then uses
   the already-resolved x and z.  The source binds a head constant equal
   to floor of newY + 1.7 and recomputes the same value for blockAbove;
   1.7 is modelled as the exact rational 17/10. -/
def Player.moveWithCollision (w : World) (p : Player) : Player :=
  let newX := p.x + p.velX
  let newY := p.y + p.velY
  let newZ := p.z + p.velZ
  let feet := ⌊newY⌋
  let blockFeet := getBlockVal w ⌊newX⌋ feet ⌊p.z⌋
  let blockFeetZ := getBlockVal w ⌊p.x⌋ feet ⌊newZ⌋
  let x1 := if blockFeet = 0 then newX else p.x
  let z1 := if blockFeetZ = 0 then newZ else p.z
  let blockBelow := getBlockVal w ⌊x1⌋ ⌊newY⌋ ⌊z1⌋
  let blockAbove := getBlockVal w ⌊x1⌋ ⌊newY + 17 / 10⌋ ⌊z1⌋
  if blockBelow = 0 ∧ blockAbove = 0 then
    { p with x := x1, z := z1, y := newY, onGround := false }
  else
    { p with x := x1, z := z1, velY := 0,
             onGround := if p.velY < 0 then true else p.onGround }

/- Player.update for a tick with every input flag false: the intent sums
   mx = mz = 0, so the magnitude is 0 and the normalization branch is not
   taken, velX = velZ = 0, gravity accumulates into velY, and with space
   false no jump impulse fires; then _moveWithCollision runs. -/
def Player.updateNoInput (w : World) (p : Player) : Player :=
  let p1 : Player := { p with velX := 0, velZ := 0, velY := p.velY + gravity }
  Player.moveWithCollision w p1

/- A trivial UV lookup used for concrete scenarios. -/
def trivUV : UVLookup := fun _ _ => (0, 0, 1, 1)

/- Concrete scenario for claim C5: a stone block at (0, 15, 0), on the
   boundary between section 0 and section 1 of chunk (0, 0); section 1 is
   then meshed (built), and the boundary cell is changed afterwards. -/
def worldC5a : World := initialWorld.setBlock 0 15 0 3

def worldC5b : World := worldC5a.buildSectionMesh trivUV 0 1 0

def worldC5c : World := worldC5b.setBlock 0 15 0 1

/- Concrete scenario for claim C6: stone at (1, 32, 0); the player stands
   at x = 0.95 on y = 33 with a small downward velocity from gravity and
   a positive x velocity taking the new x across x = 1. -/
def worldC6 : World := initialWorld.setBlock 1 32 0 3

def playerC6 : Player :=
  { x := 19 / 20, y := 33, z := 0, velX := 12 / 100,
    velY := -(1 / 100), velZ := 0, onGround := true }

/- Concrete scenario for claim C7: stone at (0, 32, 0); the player is
   grounded at y = 33 above it with zero velocity. -/
def worldC7 : World := initialWorld.setBlock 0 32 0 3

def playerC7 : Player :=
  { x := 0, y := 33, z := 0, velX := 0, velY := 0, velZ := 0, onGround := true }

/- Concrete scenario for claim C3: stone at (0, 40, 0) with glass at
   (0, 41, 0) above it. -/
def worldC3 : World := (initialWorld.setBlock 0 40 0 3).setBlock 0 41 0 9

/- Concrete scenario for claim C4, isolated part: a single stone block at
   (5, 69, 5), inside section 4 of chunk (0, 0), all neighbours empty. -/
def worldC4 : World := initialWorld.setBlock 5 69 5 3

/- Concrete scenario for claim C4, enclosed part: a stone block at
   (5, 37, 5) whose six neighbours are all stone. -/
def worldC4e : World :=
  ((((((initialWorld.setBlock 5 37 5 3).setBlock 5 38 5 3).setBlock
      5 36 5 3).setBlock 5 37 4 3).setBlock 5 37 6 3).setBlock
      4 37 5 3).setBlock 6 37 5 3

theorem jsAnd15_eq (x : Int) : (jsAnd15 x : Int) = x % 16 := by
  unfold jsAnd15; omega

theorem jsAnd15_lt (x : Int) : jsAnd15 x < 16 := by
  unfold jsAnd15; omega

theorem fdiv_sixteen (x : Int) : x.fdiv 16 = x / 16 :=
  Int.fdiv_eq_ediv x (by norm_num)

theorem getBlockVal_eq_getBlock_fst (w : World) (x y z : Int) :
    getBlockVal w x y z = (w.getBlock x y z).1 := by
  unfold getBlockVal World.getBlock World.getChunk
  by_cases hy : y < 0 ∨ 128 ≤ y
  · simp [hy]
  · simp only [hy, if_false]
    cases hc : w.chunks (x.fdiv 16, z.fdiv 16) with
    | none => simp [hc, createChunk, createSection]
    | some c => simp [hc]

theorem getBlockVal_oob (w : World) (x y z : Int) (hy : y < 0 ∨ 128 ≤ y) :
    getBlockVal w x y z = 0 := by
  unfold getBlockVal
  simp [hy, Blocks.AIR]

theorem setBlock_oob (w : World) (x y z k : Int) (hy : y < 0 ∨ 128 ≤ y) :
    w.setBlock x y z k = w := by
  unfold World.setBlock
  simp [hy]

theorem getBlockVal_setBlock_same (w : World) (x y z k : Int)
    (h0 : 0 ≤ y) (h1 : y < 128) :
    getBlockVal (w.setBlock x y z k) x y z = jsToUint8 k := by
  have hy : ¬(y < 0 ∨ 128 ≤ y) := by omega
  unfold World.setBlock getBlockVal World.getChunk
  cases hc : w.chunks (x.fdiv 16, z.fdiv 16) with
  | none => simp [hy, hc]
  | some c => simp [hy, hc]

theorem getBlockVal_setBlock_other (w : World) (x y z k x' y' z' : Int)
    (h : ¬(x' = x ∧ y' = y ∧ z' = z)) :
    getBlockVal (w.setBlock x y z k) x' y' z' = getBlockVal w x' y' z' := by
  by_cases hy : y < 0 ∨ 128 ≤ y
  · rw [setBlock_oob w x y z k hy]
  by_cases hy' : y' < 0 ∨ 128 ≤ y'
  · rw [getBlockVal_oob _ _ _ _ hy', getBlockVal_oob _ _ _ _ hy']
  unfold World.setBlock getBlockVal World.getChunk
  simp only [hy, hy', if_false]
  by_cases hp : ((x'.fdiv 16, z'.fdiv 16) : Int × Int) = (x.fdiv 16, z.fdiv 16)
  · -- same chunk: the read either hits the written section and cell or not
    have e1 : x'.fdiv 16 = x.fdiv 16 := congrArg Prod.fst hp
    have e2 : z'.fdiv 16 = z.fdiv 16 := congrArg Prod.snd hp
    have hcell : ¬((y'.fdiv 16).toNat = (y.fdiv 16).toNat ∧
        blockIndex x' y' z' = blockIndex x y z) := by
      rintro ⟨hs, hi⟩
      apply h
      unfold blockIndex at hi
      have l1 := jsAnd15_lt x; have l2 := jsAnd15_lt y; have l3 := jsAnd15_lt z
      have l4 := jsAnd15_lt x'; have l5 := jsAnd15_lt y'; have l6 := jsAnd15_lt z'
      have q1 := jsAnd15_eq x; have q2 := jsAnd15_eq y; have q3 := jsAnd15_eq z
      have q4 := jsAnd15_eq x'; have q5 := jsAnd15_eq y'; have q6 := jsAnd15_eq z'
      rw [fdiv_sixteen x', fdiv_sixteen x] at e1
      rw [fdiv_sixteen z', fdiv_sixteen z] at e2
      rw [fdiv_sixteen y', fdiv_sixteen y] at hs
      omega
    rw [hp]
    cases hc : w.chunks (x.fdiv 16, z.fdiv 16) with
    | none =>
      simp only [hc, if_pos rfl]
      by_cases hs : ((y'.fdiv 16).toNat) = ((y.fdiv 16).toNat)
      · have hi : ¬(blockIndex x' y' z' = blockIndex x y z) := fun hi => hcell ⟨hs, hi⟩
        simp [hs, hi, createChunk, createSection]
      · simp [hs, createChunk, createSection]
    | some c =>
      simp only [hc, if_pos rfl]
      by_cases hs : ((y'.fdiv 16).toNat) = ((y.fdiv 16).toNat)
      · have hi : ¬(blockIndex x' y' z' = blockIndex x y z) := fun hi => hcell ⟨hs, hi⟩
        simp [hs, hi]
      · simp [hs]
  · -- different chunk key: the write does not touch the chunk that is read
    cases hc : w.chunks (x.fdiv 16, z.fdiv 16) with
    | none => simp [hc, hp]
    | some c => simp [hc, hp]

theorem getBlockVal_getChunk_snd (w : World) (cx cz x y z : Int) :
    getBlockVal ((w.getChunk cx cz).2) x y z = getBlockVal w x y z := by
  unfold getBlockVal World.getChunk
  cases hc : w.chunks (cx, cz) with
  | some c => rfl
  | none =>
    by_cases hy : y < 0 ∨ 128 ≤ y
    · simp [hy]
    · simp only [hy, if_false]
      by_cases hp : ((x.fdiv 16, z.fdiv 16) : Int × Int) = (cx, cz)
      · rw [hp]
        simp [hc, createChunk, createSection]
      · simp [hp]

theorem meshFlagAt_setBlock_own (w : World) (x y z k : Int)
    (h0 : 0 ≤ y) (h1 : y < 128) :
    meshFlagAt (w.setBlock x y z k) (x.fdiv 16) ((y.fdiv 16).toNat) (z.fdiv 16) = none := by
  have hy : ¬(y < 0 ∨ 128 ≤ y) := by omega
  unfold World.setBlock meshFlagAt World.getChunk
  cases hc : w.chunks (x.fdiv 16, z.fdiv 16) with
  | none => simp [hy, hc]
  | some c => simp [hy, hc]

theorem meshFlagAt_setBlock_other (w : World) (x y z k : Int) (cx' : Int)
    (cy' : Nat) (cz' : Int)
    (h : ¬(cx' = x.fdiv 16 ∧ cy' = (y.fdiv 16).toNat ∧ cz' = z.fdiv 16)) :
    meshFlagAt (w.setBlock x y z k) cx' cy' cz' = meshFlagAt w cx' cy' cz' := by
  by_cases hy : y < 0 ∨ 128 ≤ y
  · rw [setBlock_oob w x y z k hy]
  unfold World.setBlock meshFlagAt World.getChunk
  simp only [hy, if_false]
  by_cases hp : ((cx', cz') : Int × Int) = (x.fdiv 16, z.fdiv 16)
  · have e1 : cx' = x.fdiv 16 := congrArg Prod.fst hp
    have e2 : cz' = z.fdiv 16 := congrArg Prod.snd hp
    have hs : ¬(cy' = (y.fdiv 16).toNat) := fun hs => h ⟨e1, hs, e2⟩
    rw [hp]
    cases hc : w.chunks (x.fdiv 16, z.fdiv 16) with
    | none => simp [hc, hs, createChunk, createSection]
    | some c => simp [hc, hs]
  · cases hc : w.chunks (x.fdiv 16, z.fdiv 16) with
    | none => simp [hc, hp]
    | some c => simp [hc, hp]

/-- Claim C1: for every integer x and z, every integer y with 0 <= y < 128
and every block kind k storable in a cell (a natural below 256), setBlock
followed by getBlock at the same coordinates returns k, and the chunk and
local coordinate mapping resolves negative world coordinates with floor
division and a non-negative remainder: the local index x & 15 is exactly
the remainder x - 16 * floor(x / 16) and lies in [0, 16), and likewise
for z. -/
theorem claim_C1_setget_roundtrip (w : World) (x z y : Int) (k : Nat)
    (h0 : 0 ≤ y) (h1 : y < 128) (hk : k < 256) :
    getBlockVal (w.setBlock x y z (k : Int)) x y z = k ∧
    ((jsAnd15 x : Int) = x - 16 * x.fdiv 16 ∧ jsAnd15 x < 16) ∧
    ((jsAnd15 z : Int) = z - 16 * z.fdiv 16 ∧ jsAnd15 z < 16) := by
  refine ⟨?_, ⟨?_, jsAnd15_lt x⟩, ⟨?_, jsAnd15_lt z⟩⟩
  · rw [getBlockVal_setBlock_same w x y z k h0 h1]
    unfold jsToUint8
    omega
  · have := jsAnd15_eq x
    rw [fdiv_sixteen]
    omega
  · have := jsAnd15_eq z
    rw [fdiv_sixteen]
    omega

/-- Witness for claim C1 at the negative coordinates x = -1, z = -17 with
y = 5 and kind 9. -/
theorem claim_C1_witness :
    getBlockVal (initialWorld.setBlock (-1) 5 (-17) ((9 : Nat) : Int)) (-1) 5 (-17) = 9 ∧
    ((jsAnd15 (-1) : Int) = -1 - 16 * Int.fdiv (-1) 16 ∧ jsAnd15 (-1) < 16) ∧
    ((jsAnd15 (-17) : Int) = -17 - 16 * Int.fdiv (-17) 16 ∧ jsAnd15 (-17) < 16) :=
  claim_C1_setget_roundtrip initialWorld (-1) (-17) 5 9
    (by norm_num) (by norm_num) (by norm_num)

/-- Claim C2: for every integer x and z and every y with y < 0 or
y >= 128, getBlock returns 0 without any state change, and setBlock is a
no-op returning the world unchanged, so every chunk, every cell of every
section and every cached mesh flag is unchanged. -/
theorem claim_C2_out_of_range (w : World) (x y z k : Int)
    (hy : y < 0 ∨ 128 ≤ y) :
    (w.getBlock x y z).1 = 0 ∧ (w.getBlock x y z).2 = w ∧
    w.setBlock x y z k = w := by
  refine ⟨?_, ?_, setBlock_oob w x y z k hy⟩
  · unfold World.getBlock
    simp [hy, Blocks.AIR]
  · unfold World.getBlock
    simp [hy]

/-- Witness for claim C2 at y = -1. -/
theorem claim_C2_witness :
    (initialWorld.getBlock 3 (-1) 4).1 = 0 ∧
    (initialWorld.getBlock 3 (-1) 4).2 = initialWorld ∧
    initialWorld.setBlock 3 (-1) 4 7 = initialWorld :=
  claim_C2_out_of_range initialWorld 3 (-1) 4 7 (Or.inl (by norm_num))

/-- Claim C9: block cells are 8-bit, so for every in-range y and every
integer kind k, setBlock followed by getBlock returns the non-negative
residue of k modulo 256; kinds outside 0..255 are silently truncated. -/
theorem claim_C9_uint8_truncation (w : World) (x z y k : Int)
    (h0 : 0 ≤ y) (h1 : y < 128) :
    getBlockVal (w.setBlock x y z k) x y z = (k % 256).toNat :=
  getBlockVal_setBlock_same w x y z k h0 h1

/-- Witness for claim C9: storing kind 300 reads back 44. -/
theorem claim_C9_witness :
    getBlockVal (initialWorld.setBlock 2 5 3 300) 2 5 3 = 44 :=
  (claim_C9_uint8_truncation initialWorld 2 3 5 300
    (by norm_num) (by norm_num)).trans (by decide)

/-- Claim C5 (counterexample): a stone block is placed at (0, 15, 0), on
the boundary between section 0 and section 1 of chunk (0, 0); section 1
is meshed, so its cached flag is built (some true).  Changing the
boundary cell (kind 3 to kind 1) with setBlock leaves the adjacent
section 1 flag at some true: its cached geometry is not invalidated, so
the claim as stated is false at this input. -/
theorem claim_C5_counterexample :
    getBlockVal worldC5b 0 15 0 = 3 ∧
    getBlockVal worldC5c 0 15 0 = 1 ∧
    meshFlagAt worldC5b 0 1 0 = some true ∧
    meshFlagAt worldC5c 0 1 0 = some true := by
  refine ⟨?_, ?_, ?_, ?_⟩ <;> decide

/-- Claim C5 (amended): setBlock marks only the owning section dirty;
the cached mesh flag of every other section, including the directly
adjacent ones across a section boundary, is left unchanged, so a
subsequent rebuild skips an already built neighbouring section. -/
theorem claim_C5_owning_section_only (w : World) (x y z k : Int)
    (h0 : 0 ≤ y) (h1 : y < 128) :
    meshFlagAt (w.setBlock x y z k) (x.fdiv 16) ((y.fdiv 16).toNat) (z.fdiv 16) = none ∧
    ∀ (cx' : Int) (cy' : Nat) (cz' : Int),
      ¬(cx' = x.fdiv 16 ∧ cy' = (y.fdiv 16).toNat ∧ cz' = z.fdiv 16) →
      meshFlagAt (w.setBlock x y z k) cx' cy' cz' = meshFlagAt w cx' cy' cz' :=
  ⟨meshFlagAt_setBlock_own w x y z k h0 h1,
   fun cx' cy' cz' h => meshFlagAt_setBlock_other w x y z k cx' cy' cz' h⟩

/-- Witness for the amended claim C5 at the boundary cell (0, 15, 0):
the owning section 0 is dirtied and the adjacent section 1 is unchanged. -/
theorem claim_C5_witness :
    meshFlagAt (initialWorld.setBlock 0 15 0 3)
      (Int.fdiv 0 16) ((Int.fdiv 15 16).toNat) (Int.fdiv 0 16) = none ∧
    meshFlagAt (initialWorld.setBlock 0 15 0 3) 0 1 0 = meshFlagAt initialWorld 0 1 0 :=
  ⟨(claim_C5_owning_section_only initialWorld 0 15 0 3 (by norm_num) (by norm_num)).1,
   (claim_C5_owning_section_only initialWorld 0 15 0 3 (by norm_num) (by norm_num)).2
     0 1 0 (by decide)⟩

/-- Claim C6 (counterexample): the player stands at y = 33 with a small
downward velocity; the feet-level voxel at the floor of the CURRENT y
(1, 33, 0) is empty, yet the x movement is rejected (x stays 19/20
instead of moving to 107/100), because the source takes the feet level
at the floor of the tentative new y, 32, where a stone block sits.  So
acceptance is not equivalent to emptiness at the current-y feet voxel. -/
theorem claim_C6_counterexample :
    (Player.moveWithCollision worldC6 playerC6).x = 19 / 20 ∧
    getBlockVal worldC6 ⌊playerC6.x + playerC6.velX⌋ ⌊playerC6.y⌋ ⌊playerC6.z⌋ = 0 ∧
    playerC6.x + playerC6.velX ≠ playerC6.x := by
  have h1 : (⌊(19 : ℚ) / 20 + 12 / 100⌋ : Int) = 1 := by norm_num
  have h2 : (⌊(33 : ℚ) + -(1 / 100)⌋ : Int) = 32 := by norm_num
  have h3 : (⌊(33 : ℚ)⌋ : Int) = 33 := by norm_num
  have h4 : (⌊(19 : ℚ) / 20⌋ : Int) = 0 := by norm_num
  have h5 : (⌊(0 : ℚ)⌋ : Int) = 0 := by norm_num
  have h6 : (⌊(33 : ℚ) + -(1 / 100) + 17 / 10⌋ : Int) = 34 := by norm_num
  have h7 : (⌊(0 : ℚ) + 0⌋ : Int) = 0 := by norm_num
  have b1 : getBlockVal worldC6 1 32 0 = 3 := by decide
  have b2 : getBlockVal worldC6 1 33 0 = 0 := by decide
  have b3 : getBlockVal worldC6 0 32 0 = 0 := by decide
  have b4 : getBlockVal worldC6 0 34 0 = 0 := by decide
  refine ⟨?_, ?_, by norm_num [playerC6]⟩
  · unfold Player.moveWithCollision playerC6
    dsimp only
    rw [h1, h2, h4, h5, h7]
    simp only [b1, b3]
    norm_num [b3, b4]
  · show getBlockVal worldC6 ⌊(19 : ℚ) / 20 + 12 / 100⌋ ⌊(33 : ℚ)⌋ ⌊(0 : ℚ)⌋ = 0
    rw [h1, h3, h5]
    exact b2

/-- Claim C6 (amended): in every kinematic tick, x movement is accepted
exactly when the feet-level voxel at (floor of new x, floor of the
tentative NEW y = y + velY, floor of current z) is empty, and z movement
is accepted independently exactly when the voxel at (floor of current x,
floor of the tentative new y, floor of new z) is empty; the feet level is
the floor of the post-gravity tentative y, not of the current y. -/
theorem claim_C6_axis_acceptance (w : World) (p : Player) :
    ((Player.moveWithCollision w p).x =
      if getBlockVal w ⌊p.x + p.velX⌋ ⌊p.y + p.velY⌋ ⌊p.z⌋ = 0
      then p.x + p.velX else p.x) ∧
    ((Player.moveWithCollision w p).z =
      if getBlockVal w ⌊p.x⌋ ⌊p.y + p.velY⌋ ⌊p.z + p.velZ⌋ = 0
      then p.z + p.velZ else p.z) := by
  unfold Player.moveWithCollision
  dsimp only
  constructor
  · split <;> split <;> split <;> rfl
  · split <;> split <;> split <;> rfl

/-- Claim C7 (counterexample): the grounded agent at y = 33 above a stone
block at y = 32 runs one no-input update tick with gravity and no jump;
its y remains 33, not 32 as the claim states, and it stays grounded. -/
theorem claim_C7_counterexample :
    (Player.updateNoInput worldC7 playerC7).y = 33 ∧
    (Player.updateNoInput worldC7 playerC7).y ≠ 32 := by
  have h1 : (⌊(0 : ℚ) + 0⌋ : Int) = 0 := by norm_num
  have h2 : (⌊(33 : ℚ) + (0 + -(1 / 100))⌋ : Int) = 32 := by norm_num
  have h3 : (⌊(0 : ℚ)⌋ : Int) = 0 := by norm_num
  have b1 : getBlockVal worldC7 0 32 0 = 3 := by decide
  have hrun : (Player.updateNoInput worldC7 playerC7).y = 33 := by
    unfold Player.updateNoInput Player.moveWithCollision playerC7 gravity
    dsimp only
    rw [h1, h2, h3]
    simp only [b1]
    norm_num
    rw [if_neg (fun hcon => by rw [b1] at hcon; exact absurd hcon.1 (by norm_num))]
  exact ⟨hrun, by rw [hrun]; norm_num⟩

/-- Claim C7 (amended): if the agent is grounded at y = 33 with zero
vertical velocity above a solid block at height 32, then after one
no-input update tick (gravity applied, no jump) the y coordinate remains
33 (the agent does not fall into the block below) and the state remains
grounded. -/
theorem claim_C7_grounded_tick (w : World) (p : Player)
    (hy : p.y = 33) (hv : p.velY = 0) (hg : p.onGround = true)
    (hsolid : getBlockVal w ⌊p.x⌋ 32 ⌊p.z⌋ ≠ 0) :
    (Player.updateNoInput w p).y = 33 ∧
    (Player.updateNoInput w p).onGround = true := by
  have h2 : (⌊(33 : ℚ) + -(1 / 100)⌋ : Int) = 32 := by norm_num
  unfold Player.updateNoInput Player.moveWithCollision gravity
  dsimp only
  rw [hy, hv]
  simp only [add_zero, zero_add, ite_self]
  rw [h2]
  rw [if_neg (fun hcon => hsolid hcon.1)]
  refine ⟨rfl, ?_⟩
  norm_num

/-- Witness for the amended claim C7 at the concrete grounded scenario. -/
theorem claim_C7_witness :
    (Player.updateNoInput worldC7 playerC7).y = 33 ∧
    (Player.updateNoInput worldC7 playerC7).onGround = true :=
  claim_C7_grounded_tick worldC7 playerC7 rfl rfl rfl
    (by
      have hfl : (⌊(0 : ℚ)⌋ : Int) = 0 := by norm_num
      show getBlockVal worldC7 ⌊(0 : ℚ)⌋ 32 ⌊(0 : ℚ)⌋ ≠ 0
      rw [hfl]
      decide)

theorem blockName_glass_iff (n : Nat) : blockName n = some "glass" ↔ n = 9 := by
  rcases n with _ | _ | _ | _ | _ | _ | _ | _ | _ | _ | m <;>
    simp [blockName]

theorem blockName_water_iff (n : Nat) : blockName n = some "water" ↔ n = 7 := by
  rcases n with _ | _ | _ | _ | _ | _ | _ | _ | _ | _ | m <;>
    simp [blockName]

theorem makeFace_top_length (x y z : Int) (u0 v0 u1 v1 : ℚ) :
    (makeFace "top" x y z u0 v0 u1 v1).length = 36 := rfl

theorem makeFace_bottom_length (x y z : Int) (u0 v0 u1 v1 : ℚ) :
    (makeFace "bottom" x y z u0 v0 u1 v1).length = 36 := rfl

theorem makeFace_north_length (x y z : Int) (u0 v0 u1 v1 : ℚ) :
    (makeFace "north" x y z u0 v0 u1 v1).length = 36 := rfl

theorem makeFace_south_length (x y z : Int) (u0 v0 u1 v1 : ℚ) :
    (makeFace "south" x y z u0 v0 u1 v1).length = 36 := rfl

theorem makeFace_west_length (x y z : Int) (u0 v0 u1 v1 : ℚ) :
    (makeFace "west" x y z u0 v0 u1 v1).length = 36 := rfl

theorem makeFace_east_length (x y z : Int) (u0 v0 u1 v1 : ℚ) :
    (makeFace "east" x y z u0 v0 u1 v1).length = 36 := rfl

theorem cellVerts_of_air (getUV : UVLookup) (w : World) (wx wy wz : Int)
    (h : getBlockVal w wx wy wz = 0) :
    cellVerts getUV w wx wy wz = [] := by
  unfold cellVerts Blocks.AIR
  rw [if_pos h]

theorem sum_map_range (n : Nat) (g : Nat → Nat) :
    ((List.range n).map g).sum = ∑ i ∈ Finset.range n, g i := by
  induction n with
  | zero => rfl
  | succ n ih =>
    rw [List.range_succ, List.map_append, List.sum_append, Finset.sum_range_succ, ih]
    simp

theorem buildSectionMeshVerts_length (getUV : UVLookup) (w : World)
    (cx : Int) (cy : Nat) (cz : Int) :
    (buildSectionMeshVerts getUV w cx cy cz).length =
      ∑ sy ∈ Finset.range 16, ∑ x ∈ Finset.range 16, ∑ z ∈ Finset.range 16,
        (cellVerts getUV w (cx * 16 + (x : Int)) ((cy : Int) * 16 + (sy : Int))
          (cz * 16 + (z : Int))).length := by
  unfold buildSectionMeshVerts
  rw [List.length_flatten, List.map_map, sum_map_range]
  refine Finset.sum_congr rfl fun sy _ => ?_
  simp only [Function.comp_apply]
  rw [List.length_flatten, List.map_map, sum_map_range]
  refine Finset.sum_congr rfl fun x _ => ?_
  simp only [Function.comp_apply]
  rw [List.length_flatten, List.map_map, sum_map_range]
  simp only [Function.comp_apply]

theorem cellVerts_isolated (getUV : UVLookup) (w : World) (wx wy wz : Int)
    (hid : getBlockVal w wx wy wz ≠ 0)
    (hnb : ∀ f ∈ facesList,
      getBlockVal w (wx + f.2.1) (wy + f.2.2.1) (wz + f.2.2.2) = 0) :
    (cellVerts getUV w wx wy wz).length = 36 * 6 := by
  have h1 := hnb ("top", 0, 1, 0) (by simp [facesList])
  have h2 := hnb ("bottom", 0, -1, 0) (by simp [facesList])
  have h3 := hnb ("north", 0, 0, -1) (by simp [facesList])
  have h4 := hnb ("south", 0, 0, 1) (by simp [facesList])
  have h5 := hnb ("west", -1, 0, 0) (by simp [facesList])
  have h6 := hnb ("east", 1, 0, 0) (by simp [facesList])
  dsimp only at h1 h2 h3 h4 h5 h6
  unfold cellVerts Blocks.AIR
  rw [if_neg hid]
  simp only [facesList, List.map_cons, List.map_nil]
  unfold cellFaceVerts
  dsimp only
  simp only [h1, h2, h3, h4, h5, h6, Blocks.AIR, eq_self_iff_true, true_or, if_true]
  simp only [List.flatten, List.length_append, List.length_nil,
    makeFace_top_length, makeFace_bottom_length, makeFace_north_length,
    makeFace_south_length, makeFace_west_length, makeFace_east_length]

/-- Claim C3: in the section mesher, for every non-empty block and each
of its six axis-aligned faces (an entry of the faces table), the face
vertices are emitted (the face loop body yields a non-empty vertex list)
if and only if the neighbouring voxel, looked up in absolute world
coordinates, is empty, or the current block is opaque (its kind is
neither glass 9 nor water 7) and the neighbour kind is the glass
exception kind 9; in particular a transparent block emits no face
against a glass neighbour. -/
theorem claim_C3_face_visibility (getUV : UVLookup) (w : World)
    (wx wy wz : Int) (f : String × Int × Int × Int) (hf : f ∈ facesList)
    (hid : getBlockVal w wx wy wz ≠ 0) :
    cellFaceVerts getUV w wx wy wz f ≠ [] ↔
      (getBlockVal w (wx + f.2.1) (wy + f.2.2.1) (wz + f.2.2.2) = 0 ∨
       ((getBlockVal w wx wy wz ≠ 9 ∧ getBlockVal w wx wy wz ≠ 7) ∧
        getBlockVal w (wx + f.2.1) (wy + f.2.2.1) (wz + f.2.2.2) = 9)) := by
  have hlen : ∀ (u0 v0 u1 v1 : ℚ), (makeFace f.1 wx wy wz u0 v0 u1 v1).length = 36 := by
    intro u0 v0 u1 v1
    simp only [facesList, List.mem_cons, List.not_mem_nil, or_false] at hf
    rcases hf with h | h | h | h | h | h <;> subst h <;> rfl
  have hcond : (getBlockVal w (wx + f.2.1) (wy + f.2.2.1) (wz + f.2.2.2) = Blocks.AIR ∨
      (¬(blockName (getBlockVal w wx wy wz) = some "glass" ∨
         blockName (getBlockVal w wx wy wz) = some "water") ∧
       blockName (getBlockVal w (wx + f.2.1) (wy + f.2.2.1) (wz + f.2.2.2)) = some "glass")) ↔
      (getBlockVal w (wx + f.2.1) (wy + f.2.2.1) (wz + f.2.2.2) = 0 ∨
       ((getBlockVal w wx wy wz ≠ 9 ∧ getBlockVal w wx wy wz ≠ 7) ∧
        getBlockVal w (wx + f.2.1) (wy + f.2.2.1) (wz + f.2.2.2) = 9)) := by
    rw [blockName_glass_iff, blockName_water_iff, blockName_glass_iff]
    unfold Blocks.AIR
    tauto
  unfold cellFaceVerts
  dsimp only
  by_cases hc : (getBlockVal w (wx + f.2.1) (wy + f.2.2.1) (wz + f.2.2.2) = Blocks.AIR ∨
      (¬(blockName (getBlockVal w wx wy wz) = some "glass" ∨
         blockName (getBlockVal w wx wy wz) = some "water") ∧
       blockName (getBlockVal w (wx + f.2.1) (wy + f.2.2.1) (wz + f.2.2.2)) = some "glass"))
  · rw [if_pos hc]
    refine iff_of_true (fun hnil => ?_) (hcond.mp hc)
    have hlen2 := congrArg List.length hnil
    rw [hlen] at hlen2
    simp at hlen2
  · rw [if_neg hc]
    exact iff_of_false (fun hne => hne rfl) (fun hr => hc (hcond.mpr hr))

/-- Witness for claim C3: a stone block at (0, 40, 0) with a glass block
above; the top face is emitted and the right side of the rule holds. -/
theorem claim_C3_witness :
    cellFaceVerts trivUV worldC3 0 40 0 ("top", 0, 1, 0) ≠ [] ↔
      (getBlockVal worldC3 (0 + 0) (40 + 1) (0 + 0) = 0 ∨
       ((getBlockVal worldC3 0 40 0 ≠ 9 ∧ getBlockVal worldC3 0 40 0 ≠ 7) ∧
        getBlockVal worldC3 (0 + 0) (40 + 1) (0 + 0) = 9)) :=
  claim_C3_face_visibility trivUV worldC3 0 40 0 ("top", 0, 1, 0)
    (by simp [facesList]) (by decide)

/-- Claim C4: a section containing a single non-empty block whose six
neighbouring voxels are all empty yields a mesh of exactly 36 vertices,
that is 6 faces times 6 vertices with 6 floats per vertex, a flat array
of 36 * 6 floats; and a solid block whose six neighbours are all solid
opaque blocks (non-empty, not glass 9, not water 7) contributes exactly
0 vertices to the mesh. -/
theorem claim_C4_face_culling_counts (getUV : UVLookup) (w : World)
    (cx : Int) (cy : Nat) (cz : Int) (sy0 x0 z0 : Nat)
    (hsy0 : sy0 < 16) (hx0 : x0 < 16) (hz0 : z0 < 16)
    (hid : getBlockVal w (cx * 16 + (x0 : Int)) ((cy : Int) * 16 + (sy0 : Int))
      (cz * 16 + (z0 : Int)) ≠ 0)
    (hothers : ∀ (sy : Nat), sy < 16 → ∀ (x : Nat), x < 16 → ∀ (z : Nat), z < 16 →
      (sy, x, z) ≠ (sy0, x0, z0) →
      getBlockVal w (cx * 16 + (x : Int)) ((cy : Int) * 16 + (sy : Int))
        (cz * 16 + (z : Int)) = 0)
    (hnbrs : ∀ f ∈ facesList,
      getBlockVal w (cx * 16 + (x0 : Int) + f.2.1) ((cy : Int) * 16 + (sy0 : Int) + f.2.2.1)
        (cz * 16 + (z0 : Int) + f.2.2.2) = 0) :
    (buildSectionMeshVerts getUV w cx cy cz).length = 36 * 6 ∧
    (∀ (w' : World) (getUV' : UVLookup) (wx wy wz : Int),
      getBlockVal w' wx wy wz ≠ 0 →
      (∀ f ∈ facesList,
        getBlockVal w' (wx + f.2.1) (wy + f.2.2.1) (wz + f.2.2.2) ≠ 0 ∧
        getBlockVal w' (wx + f.2.1) (wy + f.2.2.1) (wz + f.2.2.2) ≠ 9 ∧
        getBlockVal w' (wx + f.2.1) (wy + f.2.2.1) (wz + f.2.2.2) ≠ 7) →
      cellVerts getUV' w' wx wy wz = []) := by
  constructor
  · rw [buildSectionMeshVerts_length]
    rw [Finset.sum_eq_single_of_mem sy0 (Finset.mem_range.mpr hsy0)]
    · rw [Finset.sum_eq_single_of_mem x0 (Finset.mem_range.mpr hx0)]
      · rw [Finset.sum_eq_single_of_mem z0 (Finset.mem_range.mpr hz0)]
        · exact cellVerts_isolated getUV w _ _ _ hid hnbrs
        · intro z hz hzne
          rw [cellVerts_of_air getUV w _ _ _
            (hothers sy0 hsy0 x0 hx0 z (Finset.mem_range.mp hz)
              (fun heq => hzne (congrArg (fun t => t.2.2) heq)))]
          rfl
      · intro x hx hxne
        refine Finset.sum_eq_zero fun z hz => ?_
        rw [cellVerts_of_air getUV w _ _ _
          (hothers sy0 hsy0 x (Finset.mem_range.mp hx) z (Finset.mem_range.mp hz)
            (fun heq => hxne (congrArg (fun t => t.2.1) heq)))]
        rfl
    · intro sy hsy hsyne
      refine Finset.sum_eq_zero fun x hx => Finset.sum_eq_zero fun z hz => ?_
      rw [cellVerts_of_air getUV w _ _ _
        (hothers sy (Finset.mem_range.mp hsy) x (Finset.mem_range.mp hx) z
          (Finset.mem_range.mp hz)
          (fun heq => hsyne (congrArg (fun t => t.1) heq)))]
      rfl
  · intro w' getUV' wx wy wz hid' hnb
    unfold cellVerts Blocks.AIR
    rw [if_neg hid']
    have e : ∀ f ∈ facesList, cellFaceVerts getUV' w' wx wy wz f = ([] : List ℚ) := by
      intro f hf
      unfold cellFaceVerts
      dsimp only
      rw [if_neg]
      rintro (h0 | ⟨hop, hg⟩)
      · exact (hnb f hf).1 h0
      · exact (hnb f hf).2.1 ((blockName_glass_iff _).mp hg)
    have e1 := e ("top", 0, 1, 0) (by simp [facesList])
    have e2 := e ("bottom", 0, -1, 0) (by simp [facesList])
    have e3 := e ("north", 0, 0, -1) (by simp [facesList])
    have e4 := e ("south", 0, 0, 1) (by simp [facesList])
    have e5 := e ("west", -1, 0, 0) (by simp [facesList])
    have e6 := e ("east", 1, 0, 0) (by simp [facesList])
    simp only [facesList, List.map_cons, List.map_nil, e1, e2, e3, e4, e5, e6]
    rfl

/-- Witness for claim C4: a lone stone block at (5, 69, 5) in section 4
of chunk (0, 0) yields 36 * 6 floats, and the stone block at (5, 37, 5)
enclosed in stone on all six sides contributes no vertices. -/
theorem claim_C4_witness :
    (buildSectionMeshVerts trivUV worldC4 0 4 0).length = 36 * 6 ∧
    cellVerts trivUV worldC4e 5 37 5 = [] := by
  have happ := claim_C4_face_culling_counts trivUV worldC4 0 4 0 5 5 5
    (by decide) (by decide) (by decide) (by decide)
    (by decide)
    (by decide)
  exact ⟨happ.1, happ.2 worldC4e trivUV 5 37 5 (by decide) (by decide)⟩

theorem zLoop_val (w : World) (X0 : Int) (y : Nat) (hy : y < 128) (cz : Int)
    (k : Int) (n : Nat) (X Y Z : Int) :
    getBlockVal ((List.range n).foldl
        (fun w (z : Nat) => w.setBlock X0 (y : Int) (cz * 16 + (z : Int)) k) w) X Y Z =
      if X = X0 ∧ Y = (y : Int) ∧ cz * 16 ≤ Z ∧ Z < cz * 16 + (n : Int) then jsToUint8 k
      else getBlockVal w X Y Z := by
  induction n with
  | zero =>
    rw [if_neg]
    · rfl
    · rintro ⟨_, _, hlo, hhi⟩
      omega
  | succ n ih =>
    rw [List.range_succ, List.foldl_append]
    simp only [List.foldl_cons, List.foldl_nil]
    by_cases hhit : X = X0 ∧ Y = (y : Int) ∧ Z = cz * 16 + (n : Int)
    · obtain ⟨hX, hY, hZ⟩ := hhit
      subst hX; subst hY; subst hZ
      rw [getBlockVal_setBlock_same _ _ _ _ _ (by omega) (by omega)]
      rw [if_pos ⟨rfl, rfl, by omega, by push_cast; omega⟩]
    · rw [getBlockVal_setBlock_other _ _ _ _ _ _ _ _ (fun hc => hhit ⟨hc.1, hc.2.1, hc.2.2⟩)]
      rw [ih]
      by_cases hcn : X = X0 ∧ Y = (y : Int) ∧ cz * 16 ≤ Z ∧ Z < cz * 16 + (n : Int)
      · rw [if_pos hcn, if_pos ⟨hcn.1, hcn.2.1, hcn.2.2.1, by
          have := hcn.2.2.2; push_cast; omega⟩]
      · rw [if_neg hcn, if_neg]
        rintro ⟨h1, h2, h3, h4⟩
        have hne : Z ≠ cz * 16 + (n : Int) := fun h => hhit ⟨h1, h2, h⟩
        apply hcn
        refine ⟨h1, h2, h3, ?_⟩
        push_cast at h4
        omega

theorem xLoop_val (w : World) (cx : Int) (y : Nat) (hy : y < 128) (cz : Int)
    (k : Int) (n : Nat) (X Y Z : Int) :
    getBlockVal ((List.range n).foldl
        (fun w (x : Nat) => (List.range 16).foldl
          (fun w (z : Nat) =>
            w.setBlock (cx * 16 + (x : Int)) (y : Int) (cz * 16 + (z : Int)) k) w) w) X Y Z =
      if cx * 16 ≤ X ∧ X < cx * 16 + (n : Int) ∧ Y = (y : Int) ∧
          cz * 16 ≤ Z ∧ Z < cz * 16 + 16 then jsToUint8 k
      else getBlockVal w X Y Z := by
  induction n with
  | zero =>
    rw [if_neg]
    · rfl
    · rintro ⟨hlo, hhi, _⟩
      omega
  | succ n ih =>
    have hr : List.range (n + 1) = List.range n ++ [n] := by rw [List.range_succ]
    rw [hr, List.foldl_append]
    simp only [List.foldl_cons, List.foldl_nil]
    rw [zLoop_val _ _ _ hy, ih]
    split_ifs <;> first
      | rfl
      | (exfalso; push_cast at *; omega)

theorem genLoop_val (w : World) (cx cz : Int) (n : Nat) (hn : n ≤ 128) (X Y Z : Int) :
    getBlockVal ((List.range n).foldl
        (fun w (y : Nat) => (List.range 16).foldl
          (fun w (x : Nat) => (List.range 16).foldl
            (fun w (z : Nat) =>
              w.setBlock (cx * 16 + (x : Int)) (y : Int) (cz * 16 + (z : Int))
                ((genBlockAt y : Nat) : Int)) w) w) w) X Y Z =
      if cx * 16 ≤ X ∧ X < cx * 16 + 16 ∧ cz * 16 ≤ Z ∧ Z < cz * 16 + 16 ∧
          0 ≤ Y ∧ Y < (n : Int) then jsToUint8 ((genBlockAt Y.toNat : Nat) : Int)
      else getBlockVal w X Y Z := by
  induction n with
  | zero =>
    rw [if_neg]
    · rfl
    · rintro ⟨_, _, _, _, h5, h6⟩
      omega
  | succ n ih =>
    have hr : List.range (n + 1) = List.range n ++ [n] := by rw [List.range_succ]
    rw [hr, List.foldl_append]
    simp only [List.foldl_cons, List.foldl_nil]
    rw [xLoop_val _ _ _ (by omega), ih (by omega)]
    by_cases hA : cx * 16 ≤ X ∧ X < cx * 16 + ((16 : Nat) : Int) ∧ Y = (n : Int) ∧
        cz * 16 ≤ Z ∧ Z < cz * 16 + 16
    · rw [if_pos hA, if_pos ⟨hA.1, by have := hA.2.1; push_cast at this ⊢; omega,
        hA.2.2.2.1, hA.2.2.2.2, by have := hA.2.2.1; omega,
        by have := hA.2.2.1; push_cast; omega⟩]
      obtain ⟨_, _, hYn, _, _⟩ := hA
      subst hYn
      rw [Int.toNat_natCast]
    · rw [if_neg hA]
      by_cases hB : cx * 16 ≤ X ∧ X < cx * 16 + 16 ∧ cz * 16 ≤ Z ∧ Z < cz * 16 + 16 ∧
          0 ≤ Y ∧ Y < (n : Int)
      · rw [if_pos hB, if_pos ⟨hB.1, hB.2.1, hB.2.2.1, hB.2.2.2.1, hB.2.2.2.2.1,
          by have := hB.2.2.2.2.2; push_cast; omega⟩]
      · rw [if_neg hB, if_neg]
        rintro ⟨h1, h2, h3, h4, h5, h6⟩
        by_cases hYn : Y = (n : Int)
        · exact hA ⟨h1, by push_cast; omega, hYn, h3, h4⟩
        · refine hB ⟨h1, h2, h3, h4, h5, ?_⟩
          push_cast at h6
          omega

theorem jsToUint8_genBlockAt (y : Nat) :
    jsToUint8 ((genBlockAt y : Nat) : Int) = genBlockAt y := by
  unfold genBlockAt Blocks.GRASS Blocks.DIRT Blocks.STONE Blocks.AIR
  split_ifs <;> decide

theorem generateChunk_val (w : World) (cx cz : Int) (X Y Z : Int) :
    getBlockVal (generateChunk w cx cz) X Y Z =
      if cx * 16 ≤ X ∧ X < cx * 16 + 16 ∧ cz * 16 ≤ Z ∧ Z < cz * 16 + 16 ∧
          0 ≤ Y ∧ Y < 128 then genBlockAt Y.toNat
      else getBlockVal w X Y Z := by
  unfold generateChunk
  rw [genLoop_val _ _ _ 128 (le_refl _)]
  by_cases hc : cx * 16 ≤ X ∧ X < cx * 16 + 16 ∧ cz * 16 ≤ Z ∧ Z < cz * 16 + 16 ∧
      0 ≤ Y ∧ Y < ((128 : Nat) : Int)
  · rw [if_pos hc, if_pos ⟨hc.1, hc.2.1, hc.2.2.1, hc.2.2.2.1, hc.2.2.2.2.1,
      by have := hc.2.2.2.2.2; push_cast at this; omega⟩]
    exact jsToUint8_genBlockAt Y.toNat
  · rw [if_neg hc, if_neg (fun hh => hc ⟨hh.1, hh.2.1, hh.2.2.1, hh.2.2.2.1,
      hh.2.2.2.2.1, by have := hh.2.2.2.2.2; push_cast; omega⟩)]
    exact getBlockVal_getChunk_snd w cx cz X Y Z

theorem generateChunk_val_in (w : World) (cx cz : Int) (lx lz : Nat)
    (hlx : lx < 16) (hlz : lz < 16) (Y : Int) (h0 : 0 ≤ Y) (h1 : Y < 128) :
    getBlockVal (generateChunk w cx cz) (cx * 16 + (lx : Int)) Y (cz * 16 + (lz : Int)) =
      genBlockAt Y.toNat := by
  rw [generateChunk_val]
  rw [if_pos ⟨by omega, by push_cast; omega, by omega, by push_cast; omega, h0, h1⟩]

theorem genBlockAt_values (t : Nat) :
    (t = 32 → genBlockAt t = 2) ∧ (29 < t → t < 32 → genBlockAt t = 1) ∧
    (t < 29 → genBlockAt t = 3) ∧ (33 ≤ t → genBlockAt t = 0) ∧
    (t = 29 → genBlockAt t = 0) := by
  unfold genBlockAt Blocks.GRASS Blocks.DIRT Blocks.STONE Blocks.AIR
  refine ⟨fun h => ?_, fun h h2 => ?_, fun h => ?_, fun h => ?_, fun h => ?_⟩ <;>
    split_ifs <;> omega

/-- Claim C8: after generateChunk with the default height constant 32,
every column of the chunk has grass (kind 2) at y = 32, dirt (kind 1) at
every y with 29 < y < 32, stone (kind 3) at every cell height y with
0 <= y < 29, and the empty kind 0 at every y >= 33; and regenerating the
same chunk reproduces exactly the same block contents everywhere. -/
theorem claim_C8_generate_profile (w : World) (cx cz : Int) (lx lz : Nat)
    (hlx : lx < 16) (hlz : lz < 16) :
    (∀ Y : Int,
      (Y = 32 →
        getBlockVal (generateChunk w cx cz) (cx * 16 + (lx : Int)) Y
          (cz * 16 + (lz : Int)) = Blocks.GRASS) ∧
      (29 < Y → Y < 32 →
        getBlockVal (generateChunk w cx cz) (cx * 16 + (lx : Int)) Y
          (cz * 16 + (lz : Int)) = Blocks.DIRT) ∧
      (0 ≤ Y → Y < 29 →
        getBlockVal (generateChunk w cx cz) (cx * 16 + (lx : Int)) Y
          (cz * 16 + (lz : Int)) = Blocks.STONE) ∧
      (33 ≤ Y →
        getBlockVal (generateChunk w cx cz) (cx * 16 + (lx : Int)) Y
          (cz * 16 + (lz : Int)) = 0)) ∧
    (∀ X Y Z : Int,
      getBlockVal (generateChunk (generateChunk w cx cz) cx cz) X Y Z =
        getBlockVal (generateChunk w cx cz) X Y Z) := by
  constructor
  · intro Y
    refine ⟨fun hY => ?_, fun hY1 hY2 => ?_, fun hY1 hY2 => ?_, fun hY => ?_⟩
    · subst hY
      rw [generateChunk_val_in w cx cz lx lz hlx hlz 32 (by omega) (by omega)]
      exact (genBlockAt_values _).1 rfl
    · rw [generateChunk_val_in w cx cz lx lz hlx hlz Y (by omega) (by omega)]
      exact (genBlockAt_values _).2.1 (by omega) (by omega)
    · rw [generateChunk_val_in w cx cz lx lz hlx hlz Y (by omega) (by omega)]
      exact (genBlockAt_values _).2.2.1 (by omega)
    · by_cases hY128 : Y < 128
      · rw [generateChunk_val_in w cx cz lx lz hlx hlz Y (by omega) hY128]
        exact (genBlockAt_values _).2.2.2.1 (by omega)
      · rw [generateChunk_val]
        rw [if_neg (fun hc => hY128 hc.2.2.2.2.2)]
        exact getBlockVal_oob _ _ _ _ (Or.inr (by omega))
  · intro X Y Z
    rw [generateChunk_val (generateChunk w cx cz), generateChunk_val w]
    split_ifs <;> rfl

/-- Witness for claim C8 in column (0, 0) of chunk (0, 0): grass at 32,
dirt at 31, stone at 10, empty at 50, and regeneration reproduces the
grass cell. -/
theorem claim_C8_witness :
    getBlockVal (generateChunk initialWorld 0 0) 0 32 0 = Blocks.GRASS ∧
    getBlockVal (generateChunk initialWorld 0 0) 0 31 0 = Blocks.DIRT ∧
    getBlockVal (generateChunk initialWorld 0 0) 0 10 0 = Blocks.STONE ∧
    getBlockVal (generateChunk initialWorld 0 0) 0 50 0 = 0 ∧
    getBlockVal (generateChunk (generateChunk initialWorld 0 0) 0 0) 0 32 0 =
      getBlockVal (generateChunk initialWorld 0 0) 0 32 0 := by
  have h := claim_C8_generate_profile initialWorld 0 0 0 0 (by norm_num) (by norm_num)
  exact ⟨(h.1 32).1 rfl, (h.1 31).2.1 (by norm_num) (by norm_num),
    (h.1 10).2.2.1 (by norm_num) (by norm_num), (h.1 50).2.2.2 (by norm_num),
    h.2 0 32 0⟩

/-- Claim C10: after generateChunk, every cell of the chunk at exactly
y = 29 (height minus 3) is empty (kind 0): the generator assigns grass at
32, dirt at 30 and 31, and stone strictly below 29, leaving a
one-block-thick air layer between the stone and the dirt in every
column. -/
theorem claim_C10_air_gap (w : World) (cx cz : Int) (lx lz : Nat)
    (hlx : lx < 16) (hlz : lz < 16) :
    getBlockVal (generateChunk w cx cz) (cx * 16 + (lx : Int)) 29
      (cz * 16 + (lz : Int)) = 0 ∧
    getBlockVal (generateChunk w cx cz) (cx * 16 + (lx : Int)) 32
      (cz * 16 + (lz : Int)) = Blocks.GRASS ∧
    getBlockVal (generateChunk w cx cz) (cx * 16 + (lx : Int)) 30
      (cz * 16 + (lz : Int)) = Blocks.DIRT ∧
    getBlockVal (generateChunk w cx cz) (cx * 16 + (lx : Int)) 31
      (cz * 16 + (lz : Int)) = Blocks.DIRT ∧
    (∀ Y : Int, 0 ≤ Y → Y < 29 →
      getBlockVal (generateChunk w cx cz) (cx * 16 + (lx : Int)) Y
        (cz * 16 + (lz : Int)) = Blocks.STONE) := by
  refine ⟨?_, ?_, ?_, ?_, fun Y h0 h1 => ?_⟩
  · rw [generateChunk_val_in w cx cz lx lz hlx hlz 29 (by omega) (by omega)]
    exact (genBlockAt_values _).2.2.2.2 rfl
  · rw [generateChunk_val_in w cx cz lx lz hlx hlz 32 (by omega) (by omega)]
    exact (genBlockAt_values _).1 rfl
  · rw [generateChunk_val_in w cx cz lx lz hlx hlz 30 (by omega) (by omega)]
    exact (genBlockAt_values _).2.1 (by omega) (by omega)
  · rw [generateChunk_val_in w cx cz lx lz hlx hlz 31 (by omega) (by omega)]
    exact (genBlockAt_values _).2.1 (by omega) (by omega)
  · rw [generateChunk_val_in w cx cz lx lz hlx hlz Y (by omega) (by omega)]
    exact (genBlockAt_values _).2.2.1 (by omega)

/-- Witness for claim C10 at column (3, 7) of chunk (-1, 2). -/
theorem claim_C10_witness :
    getBlockVal (generateChunk initialWorld (-1) 2) (-1 * 16 + ((3 : Nat) : Int)) 29
      (2 * 16 + ((7 : Nat) : Int)) = 0 ∧
    getBlockVal (generateChunk initialWorld (-1) 2) (-1 * 16 + ((3 : Nat) : Int)) 32
      (2 * 16 + ((7 : Nat) : Int)) = Blocks.GRASS ∧
    getBlockVal (generateChunk initialWorld (-1) 2) (-1 * 16 + ((3 : Nat) : Int)) 30
      (2 * 16 + ((7 : Nat) : Int)) = Blocks.DIRT ∧
    getBlockVal (generateChunk initialWorld (-1) 2) (-1 * 16 + ((3 : Nat) : Int)) 31
      (2 * 16 + ((7 : Nat) : Int)) = Blocks.DIRT ∧
    (∀ Y : Int, 0 ≤ Y → Y < 29 →
      getBlockVal (generateChunk initialWorld (-1) 2) (-1 * 16 + ((3 : Nat) : Int)) Y
        (2 * 16 + ((7 : Nat) : Int)) = Blocks.STONE) :=
  claim_C10_air_gap initialWorld (-1) 2 3 7 (by norm_num) (by norm_num)
